import Mathlib

/-!
Shallow embedding of the load-transformation engine of the NLTRANS
repository.  The repository holds two Python variants of the same
calculator:

  * NLTrans_V.0sm.py  - embedded below in namespace NLTransV: position
    resolution measured from the head base with a special apex case,
    bottom-head nozzle forces sign-flipped, pandas-based aggregation in
    display_results.
  * DS_NLTrans_F.py   - embedded below in namespace DSTransF: position
    resolution via a base-plus-depth reference without an apex case, one
    head force mapping for top and bottom, accumulator-loop aggregation
    in main.

Python floats are modelled as real numbers; math.sin, math.cos,
math.sqrt and math.radians become Real.sin, Real.cos, Real.sqrt and
multiplication by pi over 180.  The Python location strings form the
closed five-element set offered by the UI selectbox, modelled by the
inductive type Location; the substring tests used by the code, such as
the test whether the word Head occurs in the location string, become
the boolean functions containsHead, containsTop, containsHemispherical,
which agree with the string tests on all five values.  math.sqrt of a
negative argument raises ValueError in Python and float division by
zero raises ZeroDivisionError; the error-aware variant of position
resolution returns these outcomes in an Except monad.
-/

noncomputable section

/-- The five values of the location selectbox of both UIs. -/
inductive Location where
  | shell
  | hemiTop
  | hemiBottom
  | ellipTop
  | ellipBottom
  deriving DecidableEq

/-- Result of the Python substring test of the word Head against the five
location strings. -/
def containsHead : Location → Bool
  | .shell => false
  | _ => true

/-- Result of the Python substring test of the word Top against the five
location strings. -/
def containsTop : Location → Bool
  | .hemiTop => true
  | .ellipTop => true
  | _ => false

/-- Result of the Python substring test of the word Hemispherical against
the five location strings. -/
def containsHemispherical : Location → Bool
  | .hemiTop => true
  | .hemiBottom => true
  | _ => false

/-- The two head shapes handled by calculate_head_depth. -/
inductive HeadType where
  | hemispherical
  | ellipsoidal
  deriving DecidableEq

/-- The head_type string computed inside calculate_position of both
variants: Hemispherical when the location string mentions it, otherwise
Ellipsoidal. -/
def headTypeOf (loc : Location) : HeadType :=
  if containsHemispherical loc then .hemispherical else .ellipsoidal

/-- calculate_head_depth, identical in both source files: radius for a
hemispherical head, radius divided by the aspect ratio for an
ellipsoidal head.  The Python fall-through return of zero for an
unrecognised head type string is unreachable, because head_type is
always one of the two handled strings. -/
def calculate_head_depth (head_type : HeadType) (R aspect : ℝ) : ℝ :=
  match head_type with
  | .hemispherical => R
  | .ellipsoidal => R / aspect

/-- One nozzle record as assembled by the UIs of both variants.  The
aspect field is the aspect ratio of an ellipsoidal head. -/
structure Nozzle where
  location : Location
  offset : ℝ
  elevation : ℝ
  theta : ℝ
  aspect : ℝ
  P : ℝ
  V1 : ℝ
  V2 : ℝ
  Vc : ℝ
  VL : ℝ

/-- One pipe-support record as assembled by the UI of NLTrans_V.0sm.py;
its location is always Shell. -/
structure Support where
  offset : ℝ
  elevation : ℝ
  theta : ℝ
  Fv : ℝ
  Fh1 : ℝ
  Fh2 : ℝ

/-- A resolved global position X, Y, Z. -/
structure Pos where
  x : ℝ
  y : ℝ
  z : ℝ

/-- The six global load components of one result record. -/
structure GlobalLoad where
  Fx : ℝ
  Fy : ℝ
  Fz : ℝ
  Mx : ℝ
  My : ℝ
  Mz : ℝ

/-- Conversion from degrees to radians, as math.radians does. -/
def radians (deg : ℝ) : ℝ := deg * Real.pi / 180

/-- The Python errors the calculation code can raise: math.sqrt of a
negative number raises ValueError (math domain error), float division by
zero raises ZeroDivisionError. -/
inductive PyErr where
  | valueError
  | zeroDivisionError
  deriving DecidableEq

/-- Square root with the Python error behaviour of math.sqrt on negative
input. -/
def sqrtE (x : ℝ) : Except PyErr ℝ :=
  if x < 0 then Except.error PyErr.valueError else Except.ok (Real.sqrt x)

/-- Python float division with the error behaviour on a zero divisor. -/
def divE (a b : ℝ) : Except PyErr ℝ :=
  if b = 0 then Except.error PyErr.zeroDivisionError else Except.ok (a / b)

namespace NLTransV

/-- calculate_position from NLTrans_V.0sm.py: horizontal placement by
offset and angle, vertical placement from the support height, with head
attachments measured from the head base (support_height plus L on top,
support_height at the bottom) and a dedicated apex case at offset zero. -/
def calculate_position (n : Nozzle) (support_height R L : ℝ) : Pos :=
  let θ := radians n.theta
  let X := n.offset * Real.sin θ
  let Z := -n.offset * Real.cos θ
  let Y :=
    if n.location = Location.shell then
      support_height + n.elevation
    else
      let head_depth := calculate_head_depth (headTypeOf n.location) R n.aspect
      if containsTop n.location then
        let base_elevation := support_height + L
        if n.offset = 0 then
          base_elevation + head_depth
        else if containsHemispherical n.location then
          base_elevation + Real.sqrt (head_depth ^ 2 - n.offset ^ 2)
        else
          base_elevation + head_depth * Real.sqrt (1 - n.offset ^ 2 / R ^ 2)
      else
        let base_elevation := support_height
        if n.offset = 0 then
          base_elevation - head_depth
        else if containsHemispherical n.location then
          base_elevation - Real.sqrt (head_depth ^ 2 - n.offset ^ 2)
        else
          base_elevation - head_depth * Real.sqrt (1 - n.offset ^ 2 / R ^ 2)
  Pos.mk X Y Z

/-- calculate_position of NLTrans_V.0sm.py with the Python error
behaviour of math.sqrt and of float division made explicit: a negative
square-root argument yields ValueError, a zero divisor in the
ellipsoidal branch yields ZeroDivisionError, evaluated in Python order
(the division before the square root). -/
def calculate_positionE (n : Nozzle) (support_height R L : ℝ) : Except PyErr Pos :=
  let θ := radians n.theta
  let X := n.offset * Real.sin θ
  let Z := -n.offset * Real.cos θ
  if n.location = Location.shell then
    Except.ok (Pos.mk X (support_height + n.elevation) Z)
  else
    let head_depth := calculate_head_depth (headTypeOf n.location) R n.aspect
    if containsTop n.location then
      let base_elevation := support_height + L
      if n.offset = 0 then
        Except.ok (Pos.mk X (base_elevation + head_depth) Z)
      else if containsHemispherical n.location then
        (sqrtE (head_depth ^ 2 - n.offset ^ 2)).map
          (fun s => Pos.mk X (base_elevation + s) Z)
      else
        (divE (n.offset ^ 2) (R ^ 2)).bind (fun q =>
          (sqrtE (1 - q)).map
            (fun s => Pos.mk X (base_elevation + head_depth * s) Z))
    else
      let base_elevation := support_height
      if n.offset = 0 then
        Except.ok (Pos.mk X (base_elevation - head_depth) Z)
      else if containsHemispherical n.location then
        (sqrtE (head_depth ^ 2 - n.offset ^ 2)).map
          (fun s => Pos.mk X (base_elevation - s) Z)
      else
        (divE (n.offset ^ 2) (R ^ 2)).bind (fun q =>
          (sqrtE (1 - q)).map
            (fun s => Pos.mk X (base_elevation - head_depth * s) Z))

/-- transform_nozzle_loads from NLTrans_V.0sm.py: top-head nozzles map
P to Fy directly, bottom-head nozzles flip the signs of the P and V1
contributions, shell nozzles use the P, Vc, VL mapping; moments are the
cross product of the resolved position with the force. -/
def transform_nozzle_loads (n : Nozzle) (support_height R L : ℝ) : GlobalLoad :=
  let p := calculate_position n support_height R L
  let θ := radians n.theta
  let F :=
    if containsHead n.location then
      if containsTop n.location then
        (n.V1 * Real.sin θ + n.V2 * Real.cos θ, n.P,
          -n.V1 * Real.cos θ + n.V2 * Real.sin θ)
      else
        (-n.V1 * Real.sin θ + n.V2 * Real.cos θ, -n.P,
          n.V1 * Real.cos θ + n.V2 * Real.sin θ)
    else
      (n.P * Real.sin θ + n.Vc * Real.cos θ, n.VL,
        -n.P * Real.cos θ + n.Vc * Real.sin θ)
  let Fx := F.1
  let Fy := F.2.1
  let Fz := F.2.2
  GlobalLoad.mk Fx Fy Fz
    (p.y * Fz - p.z * Fy) (p.z * Fx - p.x * Fz) (p.x * Fy - p.y * Fx)

/-- The component record a pipe support contributes to calculate_position:
the UI stores it with location Shell, aspect ratio 2 and no nozzle
loads. -/
def supportAsComponent (s : Support) : Nozzle :=
  Nozzle.mk Location.shell s.offset s.elevation s.theta 2 0 0 0 0 0

/-- transform_support_loads from NLTrans_V.0sm.py: radial and
circumferential horizontal loads rotated by the orientation angle, the
vertical load passed through, moments as the cross product with the
resolved position. -/
def transform_support_loads (s : Support) (support_height R L : ℝ) : GlobalLoad :=
  let p := calculate_position (supportAsComponent s) support_height R L
  let θ := radians s.theta
  let Fx := s.Fh1 * Real.sin θ + s.Fh2 * Real.cos θ
  let Fy := s.Fv
  let Fz := -s.Fh1 * Real.cos θ + s.Fh2 * Real.sin θ
  GlobalLoad.mk Fx Fy Fz
    (p.y * Fz - p.z * Fy) (p.z * Fx - p.x * Fz) (p.x * Fy - p.y * Fx)

/-- The TOTAL record computed by display_results of NLTrans_V.0sm.py.
The function builds a pandas DataFrame from the combined result list and
sums each of the six load columns.  A DataFrame built from an empty list
has no columns at all, so the very first column access raises KeyError;
that outcome is modelled as none. -/
def totals (all_results : List GlobalLoad) : Option GlobalLoad :=
  match all_results with
  | [] => none
  | _ =>
    some (GlobalLoad.mk
      ((all_results.map GlobalLoad.Fx).sum)
      ((all_results.map GlobalLoad.Fy).sum)
      ((all_results.map GlobalLoad.Fz).sum)
      ((all_results.map GlobalLoad.Mx).sum)
      ((all_results.map GlobalLoad.My).sum)
      ((all_results.map GlobalLoad.Mz).sum))

end NLTransV

namespace DSTransF

/-- calculate_position from DS_NLTrans_F.py: same horizontal placement,
but the vertical reference of a head attachment is base plus head depth
(top) or base minus head depth (bottom), with a further head-depth term
in the hemispherical formula and no special apex case. -/
def calculate_position (n : Nozzle) (support_height R L : ℝ) : Pos :=
  let θ := radians n.theta
  let X := n.offset * Real.sin θ
  let Z := -n.offset * Real.cos θ
  let Y :=
    if n.location = Location.shell then
      support_height + n.elevation
    else
      let head_depth := calculate_head_depth (headTypeOf n.location) R n.aspect
      if containsTop n.location then
        let base_elevation := support_height + L + head_depth
        if containsHemispherical n.location then
          base_elevation + head_depth - Real.sqrt (head_depth ^ 2 - n.offset ^ 2)
        else
          base_elevation + head_depth * (1 - Real.sqrt (1 - n.offset ^ 2 / R ^ 2))
      else
        let base_elevation := support_height - head_depth
        if containsHemispherical n.location then
          base_elevation - head_depth + Real.sqrt (head_depth ^ 2 - n.offset ^ 2)
        else
          base_elevation - head_depth * (1 - Real.sqrt (1 - n.offset ^ 2 / R ^ 2))
  Pos.mk X Y Z

/-- transform_loads from DS_NLTrans_F.py: one head mapping for top and
bottom heads alike, with P contributing positively to Fy, and the same
shell mapping and moment cross product as the other variant. -/
def transform_loads (n : Nozzle) (support_height R L : ℝ) : GlobalLoad :=
  let p := calculate_position n support_height R L
  let θ := radians n.theta
  let F :=
    if containsHead n.location then
      (n.V1 * Real.sin θ + n.V2 * Real.cos θ, n.P,
        -n.V1 * Real.cos θ + n.V2 * Real.sin θ)
    else
      (n.P * Real.sin θ + n.Vc * Real.cos θ, n.VL,
        -n.P * Real.cos θ + n.Vc * Real.sin θ)
  let Fx := F.1
  let Fy := F.2.1
  let Fz := F.2.2
  GlobalLoad.mk Fx Fy Fz
    (p.y * Fz - p.z * Fy) (p.z * Fx - p.x * Fz) (p.x * Fy - p.y * Fx)

/-- One step of the accumulation loop in main of DS_NLTrans_F.py, which
adds the six components of one result onto the running totals. -/
def add_loads (acc r : GlobalLoad) : GlobalLoad :=
  GlobalLoad.mk (acc.Fx + r.Fx) (acc.Fy + r.Fy) (acc.Fz + r.Fz)
    (acc.Mx + r.Mx) (acc.My + r.My) (acc.Mz + r.Mz)

/-- The foundation totals computed by main of DS_NLTrans_F.py: all six
accumulators start at zero and every transformed result is added in
input order. -/
def total_loads (results : List GlobalLoad) : GlobalLoad :=
  results.foldl add_loads (GlobalLoad.mk 0 0 0 0 0 0)

end DSTransF

/-- Shell nozzle of the spec scenario: elevation 5, orientation 0,
axial load 100, no shear loads. -/
def exShell : Nozzle :=
  Nozzle.mk Location.shell 0 5 0 2 100 0 0 0 0

/-- Hemispherical bottom-head nozzle with axial load 5, radial load 3
and circumferential load 4 at orientation 0. -/
def exHemiBottom : Nozzle :=
  Nozzle.mk Location.hemiBottom 0 0 0 2 5 3 4 0 0

/-- Hemispherical top-head nozzle at the apex with axial load 50. -/
def exHemiTop : Nozzle :=
  Nozzle.mk Location.hemiTop 0 0 0 2 50 0 0 0 0

/-- Hemispherical top-head nozzle whose offset equals the vessel radius
one, the boundary of the square-root domain. -/
def exBoundary : Nozzle :=
  Nozzle.mk Location.hemiTop 1 0 0 2 0 0 0 0 0

/-- Hemispherical top-head nozzle whose offset 2 exceeds the vessel
radius one, putting the square-root argument out of domain. -/
def exOut : Nozzle :=
  Nozzle.mk Location.hemiTop 2 0 0 2 0 0 0 0 0

/-- C8: for a vessel with support height 0, radius 1 and cylinder length
10, a shell nozzle at elevation 5, orientation 0, with P equal 100 and no
shear loads resolves to position (0, 5, 0) and transforms, in both source
variants, to forces (0, 0, -100) and moments (-500, 0, 0). -/
theorem c8_shell_scenario :
    NLTransV.calculate_position exShell 0 1 10 = Pos.mk 0 5 0
    ∧ NLTransV.transform_nozzle_loads exShell 0 1 10
        = GlobalLoad.mk 0 0 (-100) (-500) 0 0
    ∧ DSTransF.transform_loads exShell 0 1 10
        = GlobalLoad.mk 0 0 (-100) (-500) 0 0 := by
  refine ⟨?_, ?_, ?_⟩ <;>
    simp [NLTransV.calculate_position, NLTransV.transform_nozzle_loads,
      DSTransF.calculate_position, DSTransF.transform_loads, exShell,
      containsHead, radians] <;>
    norm_num

/-- C4: invoked with zero attachments, the aggregation of
display_results in NLTrans_V.0sm.py does not produce an all-zero TOTAL
record: the empty DataFrame has no load columns and the column access
raises KeyError, modelled here as none. -/
theorem c4_zero_attachments : NLTransV.totals [] = none := rfl

theorem radians_add_360 (t : ℝ) : radians (t + 360) = radians t + 2 * Real.pi := by
  unfold radians; ring

theorem sin_radians_add_360 (t : ℝ) :
    Real.sin (radians (t + 360)) = Real.sin (radians t) := by
  rw [radians_add_360, Real.sin_add_two_pi]

theorem cos_radians_add_360 (t : ℝ) :
    Real.cos (radians (t + 360)) = Real.cos (radians t) := by
  rw [radians_add_360, Real.cos_add_two_pi]

/-- C6: adding 360 degrees to the orientation angle of any attachment
leaves the resolved position and all six transformed load components
unchanged, for nozzles on any location and for pipe supports. -/
theorem c6_theta_periodicity (n : Nozzle) (s : Support) (sh R L : ℝ) :
    NLTransV.calculate_position (Nozzle.mk n.location n.offset n.elevation
        (n.theta + 360) n.aspect n.P n.V1 n.V2 n.Vc n.VL) sh R L
      = NLTransV.calculate_position n sh R L
    ∧ NLTransV.transform_nozzle_loads (Nozzle.mk n.location n.offset n.elevation
        (n.theta + 360) n.aspect n.P n.V1 n.V2 n.Vc n.VL) sh R L
      = NLTransV.transform_nozzle_loads n sh R L
    ∧ NLTransV.transform_support_loads (Support.mk s.offset s.elevation
        (s.theta + 360) s.Fv s.Fh1 s.Fh2) sh R L
      = NLTransV.transform_support_loads s sh R L := by
  refine ⟨?_, ?_, ?_⟩ <;>
    simp only [NLTransV.calculate_position, NLTransV.transform_nozzle_loads,
      NLTransV.transform_support_loads, NLTransV.supportAsComponent,
      sin_radians_add_360, cos_radians_add_360]

/-- C1: in NLTrans_V.0sm.py a nozzle on a bottom head, hemispherical or
ellipsoidal, transforms its local loads with the top-head mapping
sign-flipped in the P and V1 contributions: Fx is minus V1 times sine
plus V2 times cosine, Fy is minus P, Fz is V1 times cosine plus V2 times
sine of the orientation angle. -/
theorem c1_bottom_head_forces (n : Nozzle) (sh R L : ℝ)
    (h : n.location = Location.hemiBottom ∨ n.location = Location.ellipBottom) :
    (NLTransV.transform_nozzle_loads n sh R L).Fx
        = -n.V1 * Real.sin (radians n.theta) + n.V2 * Real.cos (radians n.theta)
    ∧ (NLTransV.transform_nozzle_loads n sh R L).Fy = -n.P
    ∧ (NLTransV.transform_nozzle_loads n sh R L).Fz
        = n.V1 * Real.cos (radians n.theta) + n.V2 * Real.sin (radians n.theta) := by
  rcases h with h | h <;>
    simp [NLTransV.transform_nozzle_loads, h, containsHead, containsTop]

theorem c1_witness :
    (exHemiBottom.location = Location.hemiBottom
        ∨ exHemiBottom.location = Location.ellipBottom)
    ∧ (NLTransV.transform_nozzle_loads exHemiBottom 0 1 10).Fy = -exHemiBottom.P :=
  ⟨Or.inl rfl, (c1_bottom_head_forces exHemiBottom 0 1 10 (Or.inl rfl)).2.1⟩

/-- C2: in NLTrans_V.0sm.py a hemispherical top-head attachment with
offset in the half-open valid range resolves to vertical coordinate
support height plus L plus the square root of head depth squared minus
offset squared, and a hemispherical bottom-head attachment to support
height minus that square root; no further head-depth term is added to
the base reference. -/
theorem c2_hemi_vertical_position :
    (∀ (n : Nozzle) (sh R L : ℝ), n.location = Location.hemiTop →
        0 ≤ n.offset →
        n.offset < calculate_head_depth (headTypeOf n.location) R n.aspect →
        (NLTransV.calculate_position n sh R L).y
          = sh + L + Real.sqrt
              (calculate_head_depth (headTypeOf n.location) R n.aspect ^ 2
                - n.offset ^ 2))
    ∧ (∀ (n : Nozzle) (sh R L : ℝ), n.location = Location.hemiBottom →
        0 ≤ n.offset →
        n.offset < calculate_head_depth (headTypeOf n.location) R n.aspect →
        (NLTransV.calculate_position n sh R L).y
          = sh - Real.sqrt
              (calculate_head_depth (headTypeOf n.location) R n.aspect ^ 2
                - n.offset ^ 2)) := by
  constructor <;> intro n sh R L hloc h0 hlt <;>
    rw [hloc] at hlt <;>
    simp only [headTypeOf, containsHemispherical, calculate_head_depth,
      if_pos] at hlt <;>
    by_cases hoff : n.offset = 0
  · have hR : 0 ≤ R := le_of_lt (lt_of_le_of_lt h0 hlt)
    simp [NLTransV.calculate_position, hloc, containsTop,
      containsHemispherical, headTypeOf, calculate_head_depth, hoff,
      Real.sqrt_sq hR]
  · simp [NLTransV.calculate_position, hloc, containsTop,
      containsHemispherical, headTypeOf, calculate_head_depth, hoff]
  · have hR : 0 ≤ R := le_of_lt (lt_of_le_of_lt h0 hlt)
    simp [NLTransV.calculate_position, hloc, containsTop,
      containsHemispherical, headTypeOf, calculate_head_depth, hoff,
      Real.sqrt_sq hR]
  · simp [NLTransV.calculate_position, hloc, containsTop,
      containsHemispherical, headTypeOf, calculate_head_depth, hoff]

theorem c2_witness :
    exHemiTop.location = Location.hemiTop
    ∧ (0:ℝ) ≤ exHemiTop.offset
    ∧ exHemiTop.offset
        < calculate_head_depth (headTypeOf exHemiTop.location) 1 exHemiTop.aspect
    ∧ (NLTransV.calculate_position exHemiTop 0 1 10).y
        = 0 + 10 + Real.sqrt
            (calculate_head_depth (headTypeOf exHemiTop.location) 1
              exHemiTop.aspect ^ 2 - exHemiTop.offset ^ 2) :=
  ⟨rfl, le_refl 0,
    by simp [exHemiTop, headTypeOf, containsHemispherical, calculate_head_depth],
    c2_hemi_vertical_position.1 exHemiTop 0 1 10 rfl (le_refl 0)
      (by simp [exHemiTop, headTypeOf, containsHemispherical, calculate_head_depth])⟩

/-- C5: a head attachment with offset zero resolves, in both source
variants and for both head shapes, to the apex of the head: base plus
head depth on a top head and base minus head depth on a bottom head. -/
theorem c5_apex (n : Nozzle) (sh R L : ℝ)
    (hhead : containsHead n.location = true)
    (hoff : n.offset = 0) (hR : 0 ≤ R) :
    (NLTransV.calculate_position n sh R L).y
        = (if containsTop n.location then
            sh + L + calculate_head_depth (headTypeOf n.location) R n.aspect
          else
            sh - calculate_head_depth (headTypeOf n.location) R n.aspect)
    ∧ (DSTransF.calculate_position n sh R L).y
        = (if containsTop n.location then
            sh + L + calculate_head_depth (headTypeOf n.location) R n.aspect
          else
            sh - calculate_head_depth (headTypeOf n.location) R n.aspect) := by
  cases hloc : n.location
  case shell => rw [hloc] at hhead; simp [containsHead] at hhead
  all_goals
    constructor <;>
      simp [NLTransV.calculate_position, DSTransF.calculate_position, hloc,
        containsTop, containsHemispherical, headTypeOf, calculate_head_depth,
        hoff, Real.sqrt_sq hR]

theorem c5_witness :
    containsHead exHemiTop.location = true
    ∧ exHemiTop.offset = 0
    ∧ (0:ℝ) ≤ 1
    ∧ (NLTransV.calculate_position exHemiTop 0 1 10).y
        = (if containsTop exHemiTop.location then
            0 + 10 + calculate_head_depth (headTypeOf exHemiTop.location) 1
              exHemiTop.aspect
          else
            0 - calculate_head_depth (headTypeOf exHemiTop.location) 1
              exHemiTop.aspect) :=
  ⟨rfl, rfl, zero_le_one,
    (c5_apex exHemiTop 0 1 10 rfl rfl zero_le_one).1⟩

/-- C9: on the shell the two source variants coincide: for every shell
attachment DS_NLTrans_F.py resolves the same position and produces the
same six global load components as NLTrans_V.0sm.py. -/
theorem c9_shell_equivalence (n : Nozzle) (sh R L : ℝ)
    (h : n.location = Location.shell) :
    DSTransF.calculate_position n sh R L = NLTransV.calculate_position n sh R L
    ∧ DSTransF.transform_loads n sh R L
        = NLTransV.transform_nozzle_loads n sh R L := by
  constructor <;>
    simp [DSTransF.calculate_position, NLTransV.calculate_position,
      DSTransF.transform_loads, NLTransV.transform_nozzle_loads, h,
      containsHead]

theorem c9_witness :
    exShell.location = Location.shell
    ∧ DSTransF.transform_loads exShell 0 1 10
        = NLTransV.transform_nozzle_loads exShell 0 1 10 :=
  ⟨rfl, (c9_shell_equivalence exShell 0 1 10 rfl).2⟩

/-- C3 counterexample: the boundary offset equal to the vessel radius on
a hemispherical head, which the claim says must be rejected, is accepted
by calculate_position of NLTrans_V.0sm.py: with radius one and offset
one the square-root argument is exactly zero and the function returns
the position with vertical coordinate equal to the base reference,
raising no error of any kind. -/
theorem c3_counterexample :
    NLTransV.calculate_positionE exBoundary 0 1 10
      = Except.ok (Pos.mk 0 10 (-1)) := by
  simp [NLTransV.calculate_positionE, exBoundary, sqrtE, radians,
    containsTop, containsHemispherical, headTypeOf, calculate_head_depth,
    Except.map]

/-- C3 amended: an offset whose square exceeds the valid head geometry
makes calculate_position of NLTrans_V.0sm.py raise an uncaught Python
ValueError from math.sqrt (a math domain error), on hemispherical and
ellipsoidal heads alike; no validation error of the kind the claim
demands is produced anywhere. -/
theorem c3_amended_domain_error :
    (∀ (n : Nozzle) (sh R L : ℝ),
        (n.location = Location.hemiTop ∨ n.location = Location.hemiBottom) →
        R ^ 2 < n.offset ^ 2 →
        NLTransV.calculate_positionE n sh R L
          = Except.error PyErr.valueError)
    ∧ (∀ (n : Nozzle) (sh R L : ℝ),
        (n.location = Location.ellipTop ∨ n.location = Location.ellipBottom) →
        0 < R → R ^ 2 < n.offset ^ 2 →
        NLTransV.calculate_positionE n sh R L
          = Except.error PyErr.valueError) := by
  constructor
  · intro n sh R L h hlt
    have hne : n.offset ≠ 0 := by
      intro h0
      rw [h0] at hlt
      simp at hlt
      exact absurd hlt (not_lt.mpr (sq_nonneg R))
    have harg : R ^ 2 - n.offset ^ 2 < 0 := by linarith
    rcases h with h | h <;>
      simp [NLTransV.calculate_positionE, h, containsTop,
        containsHemispherical, headTypeOf, calculate_head_depth, hne,
        sqrtE, harg, Except.map]
  · intro n sh R L h hR hlt
    have hR2 : (0:ℝ) < R ^ 2 := by positivity
    have hne : n.offset ≠ 0 := by
      intro h0
      rw [h0] at hlt
      simp at hlt
      exact absurd (lt_trans hR2 hlt) (lt_irrefl 0)
    have h1 : 1 < n.offset ^ 2 / R ^ 2 := (one_lt_div hR2).mpr hlt
    rcases h with h | h <;>
      simp [NLTransV.calculate_positionE, h, containsTop,
        containsHemispherical, headTypeOf, calculate_head_depth, hne,
        divE, ne_of_gt hR2, sqrtE, h1, Except.map, Except.bind]

theorem c3_amended_witness :
    (exOut.location = Location.hemiTop ∨ exOut.location = Location.hemiBottom)
    ∧ (1:ℝ) ^ 2 < exOut.offset ^ 2
    ∧ NLTransV.calculate_positionE exOut 0 1 10
        = Except.error PyErr.valueError :=
  ⟨Or.inl rfl, by norm_num [exOut],
    c3_amended_domain_error.1 exOut 0 1 10 (Or.inl rfl) (by norm_num [exOut])⟩

theorem calculate_positionE_ok (n : Nozzle) (sh R L : ℝ)
    (hhead : containsHead n.location = true) (hR : 0 < R)
    (h0 : 0 ≤ n.offset) (hle : n.offset ≤ R) :
    NLTransV.calculate_positionE n sh R L
      = Except.ok (NLTransV.calculate_position n sh R L) := by
  have hsq : n.offset ^ 2 ≤ R ^ 2 := pow_le_pow_left₀ h0 hle 2
  have hR2 : (R:ℝ) ^ 2 ≠ 0 := by positivity
  have hhemi : ¬ R ^ 2 - n.offset ^ 2 < 0 := not_lt.mpr (by linarith)
  have hellip : ¬ 1 < n.offset ^ 2 / R ^ 2 :=
    not_lt.mpr ((div_le_one (by positivity)).mpr hsq)
  cases hloc : n.location
  case shell => rw [hloc] at hhead; simp [containsHead] at hhead
  all_goals
    by_cases hoff : n.offset = 0 <;>
      simp [NLTransV.calculate_positionE, NLTransV.calculate_position, hloc,
        containsTop, containsHemispherical, headTypeOf, calculate_head_depth,
        hoff, sqrtE, divE, hR2, hhemi, hellip, Except.map, Except.bind]

/-- C10: with positive radius and offset between zero and the bound the
UI enforces, namely the head depth at the default aspect ratio two,
calculate_position of NLTrans_V.0sm.py evaluates every square root on a
nonnegative argument and returns normally, never raising a math domain
error; and on an ellipsoidal head this already holds for every offset up
to the full radius, a weaker requirement than the documented invariant
of offset below head depth. -/
theorem c10_ui_bound_safety :
    (∀ (n : Nozzle) (sh R L : ℝ), containsHead n.location = true → 0 < R →
        0 ≤ n.offset →
        n.offset ≤ calculate_head_depth (headTypeOf n.location) R 2 →
        NLTransV.calculate_positionE n sh R L
          = Except.ok (NLTransV.calculate_position n sh R L))
    ∧ (∀ (n : Nozzle) (sh R L : ℝ),
        (n.location = Location.ellipTop ∨ n.location = Location.ellipBottom) →
        0 < R → 0 ≤ n.offset → n.offset ≤ R →
        NLTransV.calculate_positionE n sh R L
          = Except.ok (NLTransV.calculate_position n sh R L)) := by
  constructor
  · intro n sh R L hhead hR h0 hle
    refine calculate_positionE_ok n sh R L hhead hR h0 ?_
    cases hloc : n.location <;>
      rw [hloc] at hle <;>
      simp only [headTypeOf, containsHemispherical, calculate_head_depth,
        if_pos, if_neg, Bool.false_eq_true, not_false_eq_true,
        reduceIte] at hle
    all_goals first
      | exact hle
      | linarith
  · intro n sh R L h hR h0 hle
    have hhead : containsHead n.location = true := by
      rcases h with h | h <;> rw [h] <;> rfl
    exact calculate_positionE_ok n sh R L hhead hR h0 hle

theorem c10_witness :
    containsHead exHemiTop.location = true
    ∧ (0:ℝ) < 1
    ∧ (0:ℝ) ≤ exHemiTop.offset
    ∧ exHemiTop.offset ≤ calculate_head_depth (headTypeOf exHemiTop.location) 1 2
    ∧ NLTransV.calculate_positionE exHemiTop 0 1 10
        = Except.ok (NLTransV.calculate_position exHemiTop 0 1 10) :=
  ⟨rfl, zero_lt_one, le_refl 0,
    by simp [exHemiTop, headTypeOf, containsHemispherical, calculate_head_depth],
    c10_ui_bound_safety.1 exHemiTop 0 1 10 rfl zero_lt_one (le_refl 0)
      (by simp [exHemiTop, headTypeOf, containsHemispherical,
        calculate_head_depth])⟩

theorem foldl_add_loads (l : List GlobalLoad) (a : GlobalLoad) :
    l.foldl DSTransF.add_loads a
      = DSTransF.add_loads a
          (GlobalLoad.mk (l.map GlobalLoad.Fx).sum (l.map GlobalLoad.Fy).sum
            (l.map GlobalLoad.Fz).sum (l.map GlobalLoad.Mx).sum
            (l.map GlobalLoad.My).sum (l.map GlobalLoad.Mz).sum) := by
  induction l generalizing a with
  | nil => cases a; simp [DSTransF.add_loads]
  | cons x xs ih =>
    rw [List.foldl_cons, ih]
    cases a; cases x
    simp only [DSTransF.add_loads, List.map_cons, List.sum_cons,
      GlobalLoad.mk.injEq]
    refine ⟨by ring, by ring, by ring, by ring, by ring, by ring⟩

theorem total_loads_columns (l : List GlobalLoad) :
    DSTransF.total_loads l
      = GlobalLoad.mk (l.map GlobalLoad.Fx).sum (l.map GlobalLoad.Fy).sum
          (l.map GlobalLoad.Fz).sum (l.map GlobalLoad.Mx).sum
          (l.map GlobalLoad.My).sum (l.map GlobalLoad.Mz).sum := by
  rw [DSTransF.total_loads, foldl_add_loads]
  simp [DSTransF.add_loads]

theorem total_loads_perm {l₁ l₂ : List GlobalLoad} (h : l₁.Perm l₂) :
    DSTransF.total_loads l₁ = DSTransF.total_loads l₂ := by
  rw [total_loads_columns, total_loads_columns,
    (h.map GlobalLoad.Fx).sum_eq, (h.map GlobalLoad.Fy).sum_eq,
    (h.map GlobalLoad.Fz).sum_eq, (h.map GlobalLoad.Mx).sum_eq,
    (h.map GlobalLoad.My).sum_eq, (h.map GlobalLoad.Mz).sum_eq]

theorem totals_perm {l₁ l₂ : List GlobalLoad} (h : l₁.Perm l₂) :
    NLTransV.totals l₁ = NLTransV.totals l₂ := by
  cases l₁ with
  | nil => rw [List.Perm.eq_nil h.symm]
  | cons x xs =>
    cases l₂ with
    | nil => exact absurd h.eq_nil (by simp)
    | cons y ys =>
      simp only [NLTransV.totals,
        (h.map GlobalLoad.Fx).sum_eq, (h.map GlobalLoad.Fy).sum_eq,
        (h.map GlobalLoad.Fz).sum_eq, (h.map GlobalLoad.Mx).sum_eq,
        (h.map GlobalLoad.My).sum_eq, (h.map GlobalLoad.Mz).sum_eq]

/-- C7: permuting the nozzle list and the support list leaves the TOTAL
record unchanged, both for the pandas column sums of display_results in
NLTrans_V.0sm.py and for the accumulator loop of main in
DS_NLTrans_F.py; over the exact real arithmetic of this embedding the
totals agree exactly. -/
theorem c7_total_permutation (sh R L : ℝ)
    (ns₁ ns₂ : List Nozzle) (ss₁ ss₂ : List Support)
    (hn : ns₁.Perm ns₂) (hs : ss₁.Perm ss₂) :
    NLTransV.totals
        (ns₁.map (fun n => NLTransV.transform_nozzle_loads n sh R L)
          ++ ss₁.map (fun s => NLTransV.transform_support_loads s sh R L))
      = NLTransV.totals
        (ns₂.map (fun n => NLTransV.transform_nozzle_loads n sh R L)
          ++ ss₂.map (fun s => NLTransV.transform_support_loads s sh R L))
    ∧ DSTransF.total_loads
        (ns₁.map (fun n => DSTransF.transform_loads n sh R L))
      = DSTransF.total_loads
        (ns₂.map (fun n => DSTransF.transform_loads n sh R L)) :=
  ⟨totals_perm ((hn.map _).append (hs.map _)),
    total_loads_perm (hn.map _)⟩

theorem c7_witness :
    ([exShell, exHemiTop] : List Nozzle).Perm [exHemiTop, exShell]
    ∧ ([] : List Support).Perm []
    ∧ DSTransF.total_loads
        ([exShell, exHemiTop].map (fun n => DSTransF.transform_loads n 0 1 10))
      = DSTransF.total_loads
        ([exHemiTop, exShell].map (fun n => DSTransF.transform_loads n 0 1 10)) :=
  ⟨List.Perm.swap exHemiTop exShell [], List.Perm.refl [],
    (c7_total_permutation 0 1 10 [exShell, exHemiTop] [exHemiTop, exShell]
      [] [] (List.Perm.swap exHemiTop exShell []) (List.Perm.refl [])).2⟩
